import Mathlib

/-!
Shallow embedding of the Organizational Spotlight application's
publication-cycle / submission-lifecycle core.

The definitions below are translated from:
  * src/database/models.py      (data model)
  * src/database/db_manager.py  (CRUD operations over the SQLite store)
  * src/services/publication_service.py (cycle generation, stats, readiness)
  * src/utils/validators.py     (form validation)
  * src/utils/helpers.py        (period derivation)
  * src/ui/approver_dashboard.py (publish page ordering of send vs. status write)

The SQLite store is modelled as an in-memory state `DB` holding the rows of
the `publications`, `submissions` and `submission_fields` tables.  Timestamps
(`datetime.now()`) are modelled as an explicit `now : Nat` argument.  Python
field values, which are either strings or lists of strings, are modelled by
`Val`.  SQLite's UNIQUE-constraint failure on duplicate publication keys is
modelled with `Except`; note that the store runs without `PRAGMA foreign_keys`,
so foreign keys are not enforced.
-/

namespace Spotlight

/-- A row of the `publications` table (models.Publication). -/
structure Publication where
  id : Nat
  year : Nat
  month : Nat
  period : String
  status : String
  created_at : Nat
  published_at : Option Nat
deriving Repr, DecidableEq

/-- A row of the `submissions` table (models.Submission). -/
structure Submission where
  id : Nat
  publication_id : Nat
  user_email : String
  project_name : String
  status : String
  created_at : Nat
  updated_at : Nat
  submitted_at : Option Nat
  reviewed_by : Option String
  reviewed_at : Option Nat
deriving Repr, DecidableEq

/-- A row of the `submission_fields` table (models.SubmissionField). -/
structure SubmissionFieldRow where
  submission_id : Nat
  field_name : String
  field_value : String
  created_at : Nat
deriving Repr, DecidableEq

/-- The mutable store: the tables touched by the claims, plus the
AUTOINCREMENT counters for the surrogate ids. -/
structure DB where
  publications : List Publication
  submissions : List Submission
  submission_fields : List SubmissionFieldRow
  nextPubId : Nat
  nextSubId : Nat
deriving Repr, DecidableEq

/-- A Python field value: a string or a list of strings. -/
inductive Val where
  | str (s : String)
  | list (xs : List String)
deriving Repr, DecidableEq

/-- `', '.join(str(item) for item in v)` when `v` is a list, `str(v)`
otherwise — the conversion applied by `create_submission` and
`update_submission_fields` before an INSERT into `submission_fields`. -/
def flattenValue : Val → String
  | .str s => s
  | .list xs => String.intercalate ", " xs

/-- db_manager.create_publication: INSERT with status 'open'; the UNIQUE
(year, month, period) constraint makes a duplicate key raise, modelled as
`Except.error`. -/
def create_publication (db : DB) (year month : Nat) (period : String)
    (now : Nat) : Except String (DB × Publication) :=
  if db.publications.any (fun p =>
      p.year == year && p.month == month && p.period == period) then
    .error "UNIQUE constraint failed: publications.year, publications.month, publications.period"
  else
    let p : Publication :=
      { id := db.nextPubId, year := year, month := month, period := period,
        status := "open", created_at := now, published_at := none }
    .ok ({ db with publications := db.publications ++ [p],
                   nextPubId := db.nextPubId + 1 }, p)

/-- The 24 (month, period) combinations iterated by
publication_service.generate_annual_publications. -/
def annualCombos : List (Nat × String) :=
  (List.range 12).flatMap (fun i =>
    [(i + 1, "first_half"), (i + 1, "second_half")])

/-- publication_service.generate_annual_publications: try to create each of
the 24 cycles; a failed create (duplicate key) is caught, printed and
skipped. -/
def generate_annual_publications (db : DB) (year : Nat) (now : Nat) :
    DB × List Publication :=
  annualCombos.foldl
    (fun acc mp =>
      match create_publication acc.1 year mp.1 mp.2 now with
      | .ok (db', p) => (db', acc.2 ++ [p])
      | .error _ => acc)
    (db, [])

/-- helpers.get_current_period: derive (year, month, period) from a date. -/
def get_current_period (year month day : Nat) : Nat × Nat × String :=
  (year, month, if day ≤ 15 then "first_half" else "second_half")

/-- db_manager.get_active_publication: derive the period from the current
date with the day ≤ 15 rule, then SELECT the row matching
(year, month, period) with status 'open'. -/
def get_active_publication (db : DB) (year month day : Nat) :
    Option Publication :=
  let period := if day ≤ 15 then "first_half" else "second_half"
  db.publications.find? (fun p =>
    p.year == year && p.month == month && p.period == period &&
    p.status == "open")

/-- db_manager.update_publication_status: UPDATE the row with the given id;
when the new status is 'published' also stamp published_at = now.  Returns
`rowcount > 0`, i.e. whether a row with that id existed. -/
def update_publication_status (db : DB) (pub_id : Nat) (status : String)
    (now : Nat) : DB × Bool :=
  ({ db with publications := db.publications.map (fun p =>
      if p.id == pub_id then
        if status == "published" then
          { p with status := status, published_at := some now }
        else
          { p with status := status }
      else p) },
   db.publications.any (fun p => p.id == pub_id))

/-- publication_service.close_publication: transition to 'under_review'. -/
def close_publication (db : DB) (pub_id : Nat) (now : Nat) : DB × Bool :=
  update_publication_status db pub_id "under_review" now

/-- publication_service.publish_publication: transition to 'published'. -/
def publish_publication (db : DB) (pub_id : Nat) (now : Nat) : DB × Bool :=
  update_publication_status db pub_id "published" now

/-- db_manager.create_submission: INSERT the submission with status 'draft'
and created_at = updated_at = now, then INSERT one `submission_fields` row
per field, flattening list values. -/
def create_submission (db : DB) (publication_id : Nat)
    (user_email project_name : String) (fields : List (String × Val))
    (now : Nat) : DB × Submission :=
  let sub : Submission :=
    { id := db.nextSubId, publication_id := publication_id,
      user_email := user_email, project_name := project_name,
      status := "draft", created_at := now, updated_at := now,
      submitted_at := none, reviewed_by := none, reviewed_at := none }
  let newRows := fields.map (fun nv =>
    { submission_id := db.nextSubId, field_name := nv.1,
      field_value := flattenValue nv.2, created_at := now : SubmissionFieldRow })
  ({ db with submissions := db.submissions ++ [sub],
             submission_fields := db.submission_fields ++ newRows,
             nextSubId := db.nextSubId + 1 }, sub)

/-- Python dict assignment `d[k] = v`: overwrite in place when the key is
present, append otherwise. -/
def dictInsert (d : List (String × String)) (k v : String) :
    List (String × String) :=
  if d.any (fun kv => kv.1 == k) then
    d.map (fun kv => if kv.1 == k then (k, v) else kv)
  else d ++ [(k, v)]

/-- db_manager.get_submission_fields: SELECT the field rows of a submission
and build `{row['field_name']: row['field_value']}` — a dict comprehension,
so a later row with the same name overwrites an earlier one. -/
def get_submission_fields (db : DB) (submission_id : Nat) :
    List (String × String) :=
  (db.submission_fields.filter (fun r => r.submission_id == submission_id)).foldl
    (fun acc r => dictInsert acc r.field_name r.field_value) []

/-- db_manager.get_submissions_by_publication (no status filter): SELECT the
submissions of a publication ORDER BY created_at DESC. -/
def get_submissions_by_publication (db : DB) (publication_id : Nat) :
    List Submission :=
  List.insertionSort (fun a b => b.created_at ≤ a.created_at)
    (db.submissions.filter (fun s => s.publication_id == publication_id))

/-- db_manager.update_submission_status: UPDATE the row with the given id;
the stamped columns depend on the new status ('submitted' stamps
submitted_at; 'approved'/'rejected' stamp reviewed_by and reviewed_at; any
other value only bumps updated_at).  Returns `rowcount > 0`. -/
def update_submission_status (db : DB) (submission_id : Nat) (status : String)
    (reviewed_by : Option String) (now : Nat) : DB × Bool :=
  ({ db with submissions := db.submissions.map (fun s =>
      if s.id == submission_id then
        if status == "submitted" then
          { s with status := status, submitted_at := some now, updated_at := now }
        else if status == "approved" || status == "rejected" then
          { s with status := status, reviewed_by := reviewed_by,
                   reviewed_at := some now, updated_at := now }
        else
          { s with status := status, updated_at := now }
      else s) },
   db.submissions.any (fun s => s.id == submission_id))

/-- db_manager.update_submission_fields: DELETE every field row of the
submission, INSERT the new rows (list values flattened), bump the
submission's updated_at, and return True unconditionally. -/
def update_submission_fields (db : DB) (submission_id : Nat)
    (fields : List (String × Val)) (now : Nat) : DB × Bool :=
  let kept := db.submission_fields.filter (fun r =>
    !(r.submission_id == submission_id))
  let newRows := fields.map (fun nv =>
    { submission_id := submission_id, field_name := nv.1,
      field_value := flattenValue nv.2, created_at := now : SubmissionFieldRow })
  ({ db with submission_fields := kept ++ newRows,
             submissions := db.submissions.map (fun s =>
               if s.id == submission_id then { s with updated_at := now }
               else s) },
   true)

/-- publication_service.get_publication_stats: the dict starts as
{'total': len(submissions), 'draft': 0, ...} and the loop does
`if sub.status in stats: stats[sub.status] += 1` — note that 'total' is
itself a key of the dict. -/
def bumpStat (st : Nat × Nat × Nat × Nat × Nat) (status : String) :
    Nat × Nat × Nat × Nat × Nat :=
  if status == "total" then (st.1 + 1, st.2.1, st.2.2.1, st.2.2.2.1, st.2.2.2.2)
  else if status == "draft" then (st.1, st.2.1 + 1, st.2.2.1, st.2.2.2.1, st.2.2.2.2)
  else if status == "submitted" then (st.1, st.2.1, st.2.2.1 + 1, st.2.2.2.1, st.2.2.2.2)
  else if status == "approved" then (st.1, st.2.1, st.2.2.1, st.2.2.2.1 + 1, st.2.2.2.2)
  else if status == "rejected" then (st.1, st.2.1, st.2.2.1, st.2.2.2.1, st.2.2.2.2 + 1)
  else st

/-- The stats record returned by publication_service.get_publication_stats. -/
structure Stats where
  total : Nat
  draft : Nat
  submitted : Nat
  approved : Nat
  rejected : Nat
deriving Repr, DecidableEq

/-- publication_service.get_publication_stats. -/
def get_publication_stats (db : DB) (pub_id : Nat) : Stats :=
  let submissions := get_submissions_by_publication db pub_id
  let st := submissions.foldl (fun st sub => bumpStat st sub.status)
    (submissions.length, 0, 0, 0, 0)
  { total := st.1, draft := st.2.1, submitted := st.2.2.1,
    approved := st.2.2.2.1, rejected := st.2.2.2.2 }

/-- publication_service.is_publication_ready_to_publish. -/
def is_publication_ready_to_publish (db : DB) (pub_id : Nat) : Bool :=
  let stats := get_publication_stats db pub_id
  if stats.approved = 0 then false
  else if stats.draft > 0 ∨ stats.submitted > 0 then false
  else true

/-- The two externally visible effects of the publish page's confirm
handler, in program order. -/
inductive PubEvent where
  | email_attempt
  | status_write
deriving Repr, DecidableEq

/-- approver_dashboard.show_publish_page confirm branch: first attempt the
email send; only when it reports success call publish_publication — on
failure the store is left untouched.  The send provider's outcome is the
`email_sent` oracle; the returned trace lists the effects in the order the
code performs them. -/
def show_publish_page_confirm (db : DB) (pub_id : Nat) (email_sent : Bool)
    (now : Nat) : DB × List PubEvent :=
  if email_sent then
    ((publish_publication db pub_id now).1, [.email_attempt, .status_write])
  else
    (db, [.email_attempt])

/-- Python's `str.strip()` whitespace set (ASCII). -/
def pyIsSpace (c : Char) : Bool :=
  c == ' ' || c == '\t' || c == '\n' || c == '\x0d' ||
  c == '\x0b' || c == '\x0c'

/-- Python's `s.strip()`. -/
def pyStrip (s : String) : String :=
  ⟨((s.data.dropWhile pyIsSpace).reverse.dropWhile pyIsSpace).reverse⟩

/-- A field's configuration entry in settings.FORM_FIELDS, as read by
validators.validate_form_submission via config.get(...). -/
structure FieldConfig where
  name : String
  label : String
  required : Bool
  type : String
  options : List String
deriving Repr, DecidableEq

/-- Python truthiness of an optional field value: None, '' and [] are
falsy. -/
def valTruthy : Option Val → Bool
  | none => false
  | some (.str s) => !(s == "")
  | some (.list xs) => !xs.isEmpty

/-- validators.validate_required_field:
`value is None or (isinstance(value, str) and not value.strip())` fails. -/
def validate_required_field (value : Option Val) (field_name : String) :
    Bool × String :=
  match value with
  | none => (false, field_name ++ " is required")
  | some (.str s) =>
      if pyStrip s == "" then (false, field_name ++ " is required")
      else (true, "")
  | some (.list _) => (true, "")

/-- validators.validate_text_length: bounds on `len(text.strip())`. -/
def validate_text_length (text : String) (field_name : String)
    (min_length max_length : Nat) : Bool × String :=
  let length := (pyStrip text).length
  if length < min_length then
    (false, field_name ++ " must be at least " ++ toString min_length ++ " characters")
  else if length > max_length then
    (false, field_name ++ " must not exceed " ++ toString max_length ++ " characters")
  else (true, "")

/-- The error messages one config entry contributes in
validators.validate_form_submission; `continue` after a failed required
check skips the type checks for that field.  A non-empty list value on a
text/textarea field would make Python's `text.strip()` raise
(AttributeError), modelled as `Except.error`. -/
def validate_field (fields : List (String × Val)) (cfg : FieldConfig) :
    Except String (List String) :=
  let value : Option Val := (fields.find? (fun nv => nv.1 == cfg.name)).map (·.2)
  if cfg.required ∧ !(validate_required_field value cfg.label).1 then
    .ok [(validate_required_field value cfg.label).2]
  else if !(valTruthy value) ∧ !cfg.required then
    .ok []
  else if cfg.type == "text" || cfg.type == "textarea" then
    let maxLen := if cfg.type == "text" then 200 else 5000
    match value with
    | some (.str s) =>
        let r := validate_text_length s cfg.label 0 maxLen
        if r.1 then .ok [] else .ok [r.2]
    | some (.list []) => .ok []
    | some (.list (_ :: _)) => .error "AttributeError: list object has no attribute strip"
    | none => .ok []
  else if cfg.type == "select" then
    match value with
    | some (.str s) =>
        if cfg.options.contains s then .ok []
        else .ok [cfg.label ++ " must be one of the available options"]
    | _ => .ok [cfg.label ++ " must be one of the available options"]
  else if cfg.type == "multiselect" then
    match value with
    | some (.list _) => .ok []
    | _ => .ok [cfg.label ++ " must be a list"]
  else .ok []

/-- The `errors` list accumulated across the config loop of
validators.validate_form_submission. -/
def collectErrors (fields : List (String × Val)) :
    List FieldConfig → Except String (List String)
  | [] => .ok []
  | cfg :: rest =>
    match validate_field fields cfg with
    | .error e => .error e
    | .ok errs =>
      match collectErrors fields rest with
      | .error e => .error e
      | .ok more => .ok (errs ++ more)

/-- validators.validate_form_submission: returns
`(len(errors) == 0, errors)`. -/
def validate_form_submission (fields : List (String × Val))
    (field_config : List FieldConfig) : Except String (Bool × List String) :=
  (collectErrors fields field_config).map (fun errs => (errs.isEmpty, errs))

/-- user_dashboard submit handler: run validate_form_submission and call
create_submission only when it reports valid; on validation errors (or a
raised exception) the store is untouched. -/
def submit_form_workflow (db : DB) (publication_id : Nat)
    (user_email project_name : String) (fields : List (String × Val))
    (field_config : List FieldConfig) (now : Nat) : DB × List String :=
  match validate_form_submission fields field_config with
  | .ok (true, _) =>
      ((create_submission db publication_id user_email project_name fields now).1, [])
  | .ok (false, errs) => (db, errs)
  | .error _ => (db, [])

/-! ## Helper definitions used by the theorems -/

/-- The submissions belonging to a publication (unsorted). -/
def pubSubmissions (db : DB) (pub_id : Nat) : List Submission :=
  db.submissions.filter (fun s => s.publication_id == pub_id)

/-- An empty store, as produced by create_tables on a fresh database. -/
def emptyDB : DB :=
  { publications := [], submissions := [], submission_fields := [],
    nextPubId := 1, nextSubId := 1 }

/-- A one-submission store used by concrete witnesses. -/
def draftSubmission : Submission :=
  { id := 1, publication_id := 1, user_email := "user@example.com",
    project_name := "Apollo", status := "draft", created_at := 0,
    updated_at := 0, submitted_at := none, reviewed_by := none,
    reviewed_at := none }

/-! ## Lemmas about the stats fold -/

lemma foldl_bumpStat (l : List Submission) (init : Nat × Nat × Nat × Nat × Nat) :
    l.foldl (fun st sub => bumpStat st sub.status) init =
      (init.1 + l.countP (fun x => x.status == "total"),
       init.2.1 + l.countP (fun x => x.status == "draft"),
       init.2.2.1 + l.countP (fun x => x.status == "submitted"),
       init.2.2.2.1 + l.countP (fun x => x.status == "approved"),
       init.2.2.2.2 + l.countP (fun x => x.status == "rejected")) := by
  induction l generalizing init with
  | nil => simp
  | cons x xs ih =>
    rw [List.foldl_cons, ih]
    simp only [List.countP_cons]
    by_cases hx1 : x.status = "total"
    · simp +decide [bumpStat, hx1, Prod.ext_iff]
      omega
    by_cases hx2 : x.status = "draft"
    · simp +decide [bumpStat, hx1, hx2, Prod.ext_iff]
      omega
    by_cases hx3 : x.status = "submitted"
    · simp +decide [bumpStat, hx1, hx2, hx3, Prod.ext_iff]
      omega
    by_cases hx4 : x.status = "approved"
    · simp +decide [bumpStat, hx1, hx2, hx3, hx4, Prod.ext_iff]
      omega
    by_cases hx5 : x.status = "rejected"
    · simp +decide [bumpStat, hx1, hx2, hx3, hx4, hx5, Prod.ext_iff]
      omega
    simp +decide [bumpStat, hx1, hx2, hx3, hx4, hx5, Prod.ext_iff]

lemma sorted_perm_pubSubmissions (db : DB) (pub_id : Nat) :
    (get_submissions_by_publication db pub_id).Perm (pubSubmissions db pub_id) :=
  List.perm_insertionSort _ _

/-- Closed form of get_publication_stats in terms of the raw submission
rows of the publication. -/
lemma get_publication_stats_eq (db : DB) (pub_id : Nat) :
    get_publication_stats db pub_id =
      { total := (pubSubmissions db pub_id).length
            + (pubSubmissions db pub_id).countP (fun x => x.status == "total"),
        draft := (pubSubmissions db pub_id).countP (fun x => x.status == "draft"),
        submitted := (pubSubmissions db pub_id).countP (fun x => x.status == "submitted"),
        approved := (pubSubmissions db pub_id).countP (fun x => x.status == "approved"),
        rejected := (pubSubmissions db pub_id).countP (fun x => x.status == "rejected") } := by
  have hperm := sorted_perm_pubSubmissions db pub_id
  simp only [get_publication_stats, foldl_bumpStat, Nat.zero_add]
  simp [hperm.length_eq, hperm.countP_eq]

lemma countP_four_statuses (l : List Submission) :
    l.countP (fun s => s.status == "draft")
      + l.countP (fun s => s.status == "submitted")
      + l.countP (fun s => s.status == "approved")
      + l.countP (fun s => s.status == "rejected")
    = l.countP (fun s => s.status == "draft" || s.status == "submitted"
        || s.status == "approved" || s.status == "rejected") := by
  induction l with
  | nil => simp
  | cons x xs ih =>
    simp only [List.countP_cons]
    by_cases h1 : x.status = "draft" <;> by_cases h2 : x.status = "submitted" <;>
      by_cases h3 : x.status = "approved" <;> by_cases h4 : x.status = "rejected" <;>
      simp_all +decide <;> omega

lemma ready_iff_counts (db : DB) (pub_id : Nat) :
    is_publication_ready_to_publish db pub_id = true ↔
      (1 ≤ (pubSubmissions db pub_id).countP (fun s => s.status == "approved") ∧
       (pubSubmissions db pub_id).countP (fun s => s.status == "draft") = 0 ∧
       (pubSubmissions db pub_id).countP (fun s => s.status == "submitted") = 0) := by
  simp only [is_publication_ready_to_publish, get_publication_stats_eq]
  split_ifs with h1 h2
  · simp only [Bool.false_eq_true, false_iff]
    omega
  · simp only [Bool.false_eq_true, false_iff]
    omega
  · simp only [true_iff]
    omega

/-- C1: `is_publication_ready_to_publish` is true iff the publication's
submissions contain at least one 'approved' and no 'draft' and no
'submitted'; a publication with zero submissions is never ready; and adding
a 'rejected' submission never changes the result. -/
theorem c1_readiness (db : DB) (pub_id : Nat) :
    (is_publication_ready_to_publish db pub_id = true ↔
      (1 ≤ (pubSubmissions db pub_id).countP (fun s => s.status == "approved") ∧
       (pubSubmissions db pub_id).countP (fun s => s.status == "draft") = 0 ∧
       (pubSubmissions db pub_id).countP (fun s => s.status == "submitted") = 0))
    ∧ (pubSubmissions db pub_id = [] →
        is_publication_ready_to_publish db pub_id = false)
    ∧ (∀ sub : Submission, sub.status = "rejected" →
        is_publication_ready_to_publish
          { db with submissions := db.submissions ++ [sub] } pub_id
          = is_publication_ready_to_publish db pub_id) := by
  refine ⟨ready_iff_counts db pub_id, ?_, ?_⟩
  · intro hempty
    have h := ready_iff_counts db pub_id
    rw [hempty] at h
    simp at h
    simp [h]
  · intro sub hst
    have h1 := ready_iff_counts { db with submissions := db.submissions ++ [sub] } pub_id
    have h2 := ready_iff_counts db pub_id
    have hps : pubSubmissions { db with submissions := db.submissions ++ [sub] } pub_id
        = pubSubmissions db pub_id
          ++ List.filter (fun s => s.publication_id == pub_id) [sub] := by
      simp [pubSubmissions, List.filter_append]
    have hz : ∀ st : String, st ≠ "rejected" →
        (List.filter (fun s => s.publication_id == pub_id) [sub]).countP
          (fun s => s.status == st) = 0 := by
      intro st hne
      by_cases hp : sub.publication_id == pub_id <;>
        simp [List.filter, hp, hst, Ne.symm hne]
    rw [hps] at h1
    simp only [List.countP_append] at h1
    rw [hz "approved" (by decide), hz "draft" (by decide),
        hz "submitted" (by decide)] at h1
    simp only [Nat.add_zero] at h1
    rw [← h2] at h1
    cases hbx : is_publication_ready_to_publish
        { db with submissions := db.submissions ++ [sub] } pub_id <;>
      cases hb : is_publication_ready_to_publish db pub_id <;> simp_all

/-- Witness for c1_readiness: a publication with a single approved
submission is ready; the empty publication is not; appending a rejected
submission leaves readiness unchanged. -/
theorem c1_readiness_witness :
    is_publication_ready_to_publish
        { emptyDB with submissions := [{ draftSubmission with status := "approved" }] } 1 = true
    ∧ is_publication_ready_to_publish emptyDB 1 = false
    ∧ is_publication_ready_to_publish
        { emptyDB with submissions :=
            [{ draftSubmission with status := "approved" }]
              ++ [{ draftSubmission with id := 2, status := "rejected" }] } 1
      = is_publication_ready_to_publish
          { emptyDB with submissions := [{ draftSubmission with status := "approved" }] } 1 := by
  refine ⟨?_, ?_, ?_⟩
  · exact (c1_readiness { emptyDB with
      submissions := [{ draftSubmission with status := "approved" }] } 1).1.mpr (by decide)
  · exact (c1_readiness emptyDB 1).2.1 (by decide)
  · exact (c1_readiness { emptyDB with
      submissions := [{ draftSubmission with status := "approved" }] } 1).2.2
      { draftSubmission with id := 2, status := "rejected" } (by decide)

/-- A store whose single submission carries the pathological status string
'total', which is itself a key of the stats dict. -/
def totalStatusDB : DB :=
  { emptyDB with submissions := [{ draftSubmission with status := "total" }] }

/-- C10 counterexample: with one submission of status 'total', the stats
report total = 2 although the publication has exactly one submission, and
that submission is counted twice in `total` rather than in no bucket. -/
theorem c10_counterexample :
    (get_publication_stats totalStatusDB 1).total = 2
    ∧ (totalStatusDB.submissions.filter (fun s => s.publication_id == 1)).length = 1 := by
  exact ⟨by decide, by decide⟩

/-- C10 as amended: total equals the number of submissions plus the number
whose status is the literal string 'total'; each bucket counts exactly its
status; the four buckets sum to at most total, with equality exactly when
every submission's status is one of the four values. -/
theorem c10_stats_invariant (db : DB) (pub_id : Nat) :
    (get_publication_stats db pub_id).total
        = (pubSubmissions db pub_id).length
          + (pubSubmissions db pub_id).countP (fun s => s.status == "total")
    ∧ (get_publication_stats db pub_id).draft
        = (pubSubmissions db pub_id).countP (fun s => s.status == "draft")
    ∧ (get_publication_stats db pub_id).submitted
        = (pubSubmissions db pub_id).countP (fun s => s.status == "submitted")
    ∧ (get_publication_stats db pub_id).approved
        = (pubSubmissions db pub_id).countP (fun s => s.status == "approved")
    ∧ (get_publication_stats db pub_id).rejected
        = (pubSubmissions db pub_id).countP (fun s => s.status == "rejected")
    ∧ (get_publication_stats db pub_id).draft + (get_publication_stats db pub_id).submitted
        + (get_publication_stats db pub_id).approved + (get_publication_stats db pub_id).rejected
        ≤ (get_publication_stats db pub_id).total
    ∧ ((get_publication_stats db pub_id).draft + (get_publication_stats db pub_id).submitted
        + (get_publication_stats db pub_id).approved + (get_publication_stats db pub_id).rejected
        = (get_publication_stats db pub_id).total ↔
        ∀ s ∈ pubSubmissions db pub_id,
          s.status = "draft" ∨ s.status = "submitted" ∨ s.status = "approved"
            ∨ s.status = "rejected") := by
  have h4 := countP_four_statuses (pubSubmissions db pub_id)
  have hle := List.countP_le_length
    (fun s => s.status == "draft" || s.status == "submitted"
      || s.status == "approved" || s.status == "rejected")
    (l := pubSubmissions db pub_id)
  rw [get_publication_stats_eq]
  dsimp only
  refine ⟨rfl, rfl, rfl, rfl, rfl, by omega, ?_⟩
  constructor
  · intro heq
    have hc4 : (pubSubmissions db pub_id).countP
        (fun s => s.status == "draft" || s.status == "submitted"
          || s.status == "approved" || s.status == "rejected")
        = (pubSubmissions db pub_id).length := by omega
    rw [List.countP_eq_length] at hc4
    intro s hs
    have := hc4 s hs
    simp at this
    tauto
  · intro hall
    have hc4 : (pubSubmissions db pub_id).countP
        (fun s => s.status == "draft" || s.status == "submitted"
          || s.status == "approved" || s.status == "rejected")
        = (pubSubmissions db pub_id).length := by
      rw [List.countP_eq_length]
      intro s hs
      have := hall s hs
      simp
      tauto
    have hct : (pubSubmissions db pub_id).countP (fun s => s.status == "total") = 0 := by
      rw [List.countP_eq_zero]
      intro s hs
      rcases hall s hs with h | h | h | h <;> simp [h]
    omega

/-- Witness for c10_stats_invariant: on a store with one approved
submission the four buckets sum exactly to total. -/
theorem c10_stats_invariant_witness :
    (get_publication_stats
        { emptyDB with submissions := [{ draftSubmission with status := "approved" }] } 1).draft
      + (get_publication_stats
        { emptyDB with submissions := [{ draftSubmission with status := "approved" }] } 1).submitted
      + (get_publication_stats
        { emptyDB with submissions := [{ draftSubmission with status := "approved" }] } 1).approved
      + (get_publication_stats
        { emptyDB with submissions := [{ draftSubmission with status := "approved" }] } 1).rejected
      = (get_publication_stats
        { emptyDB with submissions := [{ draftSubmission with status := "approved" }] } 1).total := by
  exact (c10_stats_invariant
    { emptyDB with submissions := [{ draftSubmission with status := "approved" }] } 1).2.2.2.2.2.2.mpr
    (by decide)

/-! ## C3: annual cycle generation -/

/-- The key (year, month, period) is present among the store's
publications. -/
def pubKeyExists (db : DB) (year month : Nat) (period : String) : Prop :=
  ∃ p ∈ db.publications, p.year = year ∧ p.month = month ∧ p.period = period

/-- One iteration of the generate_annual_publications loop. -/
def genStep (year now : Nat) (acc : DB × List Publication)
    (mp : Nat × String) : DB × List Publication :=
  match create_publication acc.1 year mp.1 mp.2 now with
  | .ok (db', p) => (db', acc.2 ++ [p])
  | .error _ => acc

lemma generate_eq_foldl (db : DB) (year now : Nat) :
    generate_annual_publications db year now =
      annualCombos.foldl (genStep year now) (db, []) := rfl

lemma create_publication_ok (db : DB) (year month : Nat) (period : String)
    (now : Nat) (db' : DB) (p : Publication)
    (h : create_publication db year month period now = .ok (db', p)) :
    p = { id := db.nextPubId, year := year, month := month, period := period,
          status := "open", created_at := now, published_at := none }
    ∧ db'.publications = db.publications ++ [p] := by
  rw [create_publication] at h
  split_ifs at h with hc
  injection h with h'
  rw [Prod.mk.injEq] at h'
  obtain ⟨hdb, hp⟩ := h'
  subst hdb
  subst hp
  exact ⟨rfl, rfl⟩

lemma create_publication_error (db : DB) (year month : Nat) (period : String)
    (now : Nat) (e : String)
    (h : create_publication db year month period now = .error e) :
    pubKeyExists db year month period := by
  rw [create_publication] at h
  split_ifs at h with hc
  obtain ⟨p, hp, hpred⟩ := List.any_eq_true.mp hc
  simp only [Bool.and_eq_true, beq_iff_eq] at hpred
  exact ⟨p, hp, hpred.1.1, hpred.1.2, hpred.2⟩

lemma genStep_preserves (year now : Nat) (acc : DB × List Publication)
    (mp : Nat × String) (y0 m0 : Nat) (per0 : String)
    (h : pubKeyExists acc.1 y0 m0 per0) :
    pubKeyExists (genStep year now acc mp).1 y0 m0 per0 := by
  obtain ⟨p, hp, hkey⟩ := h
  unfold genStep
  cases hc : create_publication acc.1 year mp.1 mp.2 now with
  | ok res =>
    obtain ⟨-, hpubs⟩ := create_publication_ok _ _ _ _ _ _ _ hc
    exact ⟨p, by simp [hpubs, hp], hkey⟩
  | error e => exact ⟨p, hp, hkey⟩

lemma genStep_establishes (year now : Nat) (acc : DB × List Publication)
    (mp : Nat × String) :
    pubKeyExists (genStep year now acc mp).1 year mp.1 mp.2 := by
  unfold genStep
  cases hc : create_publication acc.1 year mp.1 mp.2 now with
  | ok res =>
    obtain ⟨hp, hpubs⟩ := create_publication_ok _ _ _ _ _ _ _ hc
    exact ⟨res.2, by simp [hpubs], by simp [hp]⟩
  | error e => exact create_publication_error _ _ _ _ _ _ hc

lemma foldl_genStep_preserves (year now : Nat) (l : List (Nat × String))
    (acc : DB × List Publication) (y0 m0 : Nat) (per0 : String)
    (h : pubKeyExists acc.1 y0 m0 per0) :
    pubKeyExists ((l.foldl (genStep year now) acc).1) y0 m0 per0 := by
  induction l generalizing acc with
  | nil => exact h
  | cons c cs ih => exact ih _ (genStep_preserves year now acc c y0 m0 per0 h)

lemma foldl_genStep_establishes (year now : Nat) (l : List (Nat × String))
    (acc : DB × List Publication) (mp : Nat × String) (hmem : mp ∈ l) :
    pubKeyExists ((l.foldl (genStep year now) acc).1) year mp.1 mp.2 := by
  induction l generalizing acc with
  | nil => cases hmem
  | cons c cs ih =>
    rcases List.mem_cons.mp hmem with h | h
    · subst h
      exact foldl_genStep_preserves year now cs _ year mp.1 mp.2
        (genStep_establishes year now acc mp)
    · exact ih _ h

lemma genStep_created_open (year now : Nat) (acc : DB × List Publication)
    (mp : Nat × String)
    (h : ∀ q ∈ acc.2, q.status = "open" ∧ q.year = year) :
    ∀ q ∈ (genStep year now acc mp).2, q.status = "open" ∧ q.year = year := by
  unfold genStep
  cases hc : create_publication acc.1 year mp.1 mp.2 now with
  | ok res =>
    intro q hq
    rcases List.mem_append.mp hq with hq' | hq'
    · exact h q hq'
    · obtain ⟨hp, -⟩ := create_publication_ok _ _ _ _ _ _ _ hc
      have : q = res.2 := List.mem_singleton.mp hq'
      subst this
      simp [hp]
  | error e => exact h

lemma foldl_genStep_created_open (year now : Nat) (l : List (Nat × String))
    (acc : DB × List Publication)
    (h : ∀ q ∈ acc.2, q.status = "open" ∧ q.year = year) :
    ∀ q ∈ (l.foldl (genStep year now) acc).2, q.status = "open" ∧ q.year = year := by
  induction l generalizing acc with
  | nil => exact h
  | cons c cs ih => exact ih _ (genStep_created_open year now acc c h)

lemma mem_annualCombos (m : Nat) (per : String) (hm1 : 1 ≤ m) (hm2 : m ≤ 12)
    (hper : per = "first_half" ∨ per = "second_half") :
    (m, per) ∈ annualCombos := by
  simp only [annualCombos, List.mem_flatMap, List.mem_range]
  refine ⟨m - 1, by omega, ?_⟩
  have hm : m - 1 + 1 = m := by omega
  rcases hper with h | h <;> subst h <;> simp [hm]

/-- C3: generate_annual_publications iterates all 24 (month, period)
combinations; after the call a publication exists for every combination of
the year (duplicates are skipped without an error aborting the loop), and
every publication created by the call has status 'open'. -/
theorem c3_generate_annual (db : DB) (year now m : Nat) (per : String)
    (hm1 : 1 ≤ m) (hm2 : m ≤ 12)
    (hper : per = "first_half" ∨ per = "second_half") :
    (∃ p ∈ (generate_annual_publications db year now).1.publications,
        p.year = year ∧ p.month = m ∧ p.period = per)
    ∧ (∀ q ∈ (generate_annual_publications db year now).2,
        q.status = "open" ∧ q.year = year) := by
  constructor
  · have := foldl_genStep_establishes year now annualCombos (db, []) (m, per)
      (mem_annualCombos m per hm1 hm2 hper)
    rw [generate_eq_foldl]
    exact this
  · rw [generate_eq_foldl]
    exact foldl_genStep_created_open year now annualCombos (db, [])
      (by intro q hq; cases hq)

/-- Witness for c3_generate_annual: on the empty store the March
first-half cycle of 2025 exists after generation and everything created is
open. -/
theorem c3_generate_annual_witness :
    (∃ p ∈ (generate_annual_publications emptyDB 2025 7).1.publications,
        p.year = 2025 ∧ p.month = 3 ∧ p.period = "first_half")
    ∧ (∀ q ∈ (generate_annual_publications emptyDB 2025 7).2,
        q.status = "open" ∧ q.year = 2025) :=
  c3_generate_annual emptyDB 2025 7 3 "first_half" (by decide) (by decide)
    (Or.inl rfl)

/-! ## C4: active publication lookup -/

/-- The store has at most one publication per (year, month, period) key. -/
def uniqueKeys (db : DB) : Prop :=
  db.publications.Pairwise (fun p q =>
    ¬(p.year = q.year ∧ p.month = q.month ∧ p.period = q.period))

/-- C4: under key uniqueness, get_active_publication returns exactly the
publication whose (year, month, period) matches the date under the
day ≤ 15 rule and whose status is 'open', and returns none when no such
publication exists. -/
theorem c4_active_publication (db : DB) (year month day : Nat)
    (huniq : uniqueKeys db) :
    (∀ p : Publication,
      get_active_publication db year month day = some p ↔
        (p ∈ db.publications ∧ p.year = year ∧ p.month = month ∧
         p.period = (if day ≤ 15 then "first_half" else "second_half") ∧
         p.status = "open"))
    ∧ (get_active_publication db year month day = none ↔
        ∀ q ∈ db.publications,
          ¬(q.year = year ∧ q.month = month ∧
            q.period = (if day ≤ 15 then "first_half" else "second_half") ∧
            q.status = "open")) := by
  have hsymm : Symmetric (fun p q : Publication =>
      ¬(p.year = q.year ∧ p.month = q.month ∧ p.period = q.period)) := by
    intro p q h hk
    exact h ⟨hk.1.symm, hk.2.1.symm, hk.2.2.symm⟩
  simp only [get_active_publication]
  constructor
  · intro p
    constructor
    · intro h
      have hpred := List.find?_some h
      have hmem := List.mem_of_find?_eq_some h
      simp only [Bool.and_eq_true, beq_iff_eq] at hpred
      exact ⟨hmem, hpred.1.1.1, hpred.1.1.2, hpred.1.2, hpred.2⟩
    · rintro ⟨hmem, hy, hm, hper, hst⟩
      cases hfind : db.publications.find? (fun p =>
          p.year == year && p.month == month &&
          p.period == (if day ≤ 15 then "first_half" else "second_half") &&
          p.status == "open") with
      | none =>
        rw [List.find?_eq_none] at hfind
        exact absurd (by simp [hy, hm, hper, hst]) (hfind p hmem)
      | some q =>
        have hpred := List.find?_some hfind
        have hqmem := List.mem_of_find?_eq_some hfind
        simp only [Bool.and_eq_true, beq_iff_eq] at hpred
        by_cases hpq : p = q
        · rw [hpq]
        · exact absurd ⟨hy.trans hpred.1.1.1.symm, hm.trans hpred.1.1.2.symm,
            hper.trans hpred.1.2.symm⟩ (huniq.forall hsymm hmem hqmem hpq)
  · rw [List.find?_eq_none]
    constructor
    · intro h q hq hk
      exact h q hq (by simp [hk.1, hk.2.1, hk.2.2.1, hk.2.2.2])
    · intro h q hq hpred
      simp only [Bool.and_eq_true, beq_iff_eq] at hpred
      exact h q hq ⟨hpred.1.1.1, hpred.1.1.2, hpred.1.2, hpred.2⟩

/-- Witness for c4_active_publication: on a one-publication store, March
10 2025 finds the open first-half March publication, and a date with no
matching cycle finds none. -/
theorem c4_active_publication_witness :
    (get_active_publication
        { emptyDB with publications :=
            [{ id := 1, year := 2025, month := 3, period := "first_half",
               status := "open", created_at := 0, published_at := none }] }
        2025 3 10
      = some { id := 1, year := 2025, month := 3, period := "first_half",
               status := "open", created_at := 0, published_at := none })
    ∧ (get_active_publication
        { emptyDB with publications :=
            [{ id := 1, year := 2025, month := 3, period := "first_half",
               status := "open", created_at := 0, published_at := none }] }
        2025 3 20
      = none) := by
  constructor
  · exact ((c4_active_publication
      { emptyDB with publications :=
          [{ id := 1, year := 2025, month := 3, period := "first_half",
             status := "open", created_at := 0, published_at := none }] }
      2025 3 10 (by simp [uniqueKeys])).1 _).mpr (by decide)
  · exact (c4_active_publication
      { emptyDB with publications :=
          [{ id := 1, year := 2025, month := 3, period := "first_half",
             status := "open", created_at := 0, published_at := none }] }
      2025 3 20 (by simp [uniqueKeys])).2.mpr (by decide)

/-! ## C2: send is attempted before the status write -/

/-- C2: the confirm handler's trace starts with the email attempt; a status
write occurs only when the send succeeded; and on send failure the store —
in particular every publication's status and published_at — is unchanged. -/
theorem c2_send_before_publish (db : DB) (pub_id now : Nat) (email_sent : Bool) :
    ((show_publish_page_confirm db pub_id email_sent now).2.head?
        = some PubEvent.email_attempt)
    ∧ (PubEvent.status_write ∈ (show_publish_page_confirm db pub_id email_sent now).2 →
        email_sent = true)
    ∧ (email_sent = false →
        (show_publish_page_confirm db pub_id email_sent now).1 = db) := by
  cases email_sent <;> simp [show_publish_page_confirm]

/-- Witness for c2_send_before_publish: a failed send leaves the store
untouched, and the first traced effect is the send attempt. -/
theorem c2_send_before_publish_witness :
    (show_publish_page_confirm emptyDB 1 false 5).1 = emptyDB
    ∧ (show_publish_page_confirm emptyDB 1 false 5).2.head?
        = some PubEvent.email_attempt :=
  ⟨(c2_send_before_publish emptyDB 1 5 false).2.2 rfl,
   (c2_send_before_publish emptyDB 1 5 false).1⟩

/-! ## C5: review stamping is last-write-wins, with no reviewedBy check -/

/-- C5 counterexample: the persistence layer performs the transition to
'approved' even when no reviewedBy value is supplied — the update reports
success and stamps reviewed_by = none, so the transition does not require
a reviewedBy value. -/
theorem c5_counterexample :
    (update_submission_status { emptyDB with submissions := [draftSubmission] }
        1 "approved" none 5).2 = true
    ∧ (update_submission_status { emptyDB with submissions := [draftSubmission] }
        1 "approved" none 5).1.submissions
      = [{ draftSubmission with
           status := "approved", reviewed_by := none,
           reviewed_at := some 5, updated_at := 5 }] := by
  exact ⟨by decide, by decide⟩

lemma update_submission_status_review (db : DB) (sid : Nat) (st : String)
    (rb : Option String) (n : Nat) (x : Submission)
    (hx : x ∈ db.submissions) (hxid : x.id = sid)
    (hst : st = "approved" ∨ st = "rejected") :
    { x with
      status := st, reviewed_by := rb, reviewed_at := some n,
      updated_at := n } ∈ (update_submission_status db sid st rb n).1.submissions := by
  simp only [update_submission_status]
  refine List.mem_map.mpr ⟨x, hx, ?_⟩
  rcases hst with h | h <;> subst h <;> simp +decide [hxid]

/-- C5 as amended: transitioning an existing submission to 'approved' or
'rejected' stamps reviewed_by = the supplied reviewedBy (which the layer
does not require: none is accepted and stored) and
reviewed_at = updated_at = now; re-invoking with a different reviewedBy
overwrites reviewed_by and reviewed_at with the later values, regardless
of the submission's prior status. -/
theorem c5_review_stamping (db : DB) (sid now1 now2 : Nat)
    (rb1 rb2 : Option String) (st1 st2 : String)
    (h1 : st1 = "approved" ∨ st1 = "rejected")
    (h2 : st2 = "approved" ∨ st2 = "rejected")
    (s : Submission) (hs : s ∈ db.submissions) (hid : s.id = sid) :
    ({ s with
        status := st1, reviewed_by := rb1, reviewed_at := some now1,
        updated_at := now1 }
      ∈ (update_submission_status db sid st1 rb1 now1).1.submissions)
    ∧ ({ s with
        status := st2, reviewed_by := rb2, reviewed_at := some now2,
        updated_at := now2 }
      ∈ (update_submission_status
          (update_submission_status db sid st1 rb1 now1).1
          sid st2 rb2 now2).1.submissions) := by
  have hfirst := update_submission_status_review db sid st1 rb1 now1 s hs hid h1
  refine ⟨hfirst, ?_⟩
  exact update_submission_status_review
    (update_submission_status db sid st1 rb1 now1).1 sid st2 rb2 now2
    ({ s with
        status := st1, reviewed_by := rb1, reviewed_at := some now1,
        updated_at := now1 })
    hfirst hid h2

/-- Witness for c5_review_stamping: approving with approver1 then
rejecting with approver2 leaves approver2's stamp. -/
theorem c5_review_stamping_witness :
    ({ draftSubmission with
        status := "approved",
        reviewed_by := some "approver1", reviewed_at := some 5, updated_at := 5 }
      ∈ (update_submission_status { emptyDB with submissions := [draftSubmission] }
          1 "approved" (some "approver1") 5).1.submissions)
    ∧ ({ draftSubmission with
        status := "rejected",
        reviewed_by := some "approver2", reviewed_at := some 9, updated_at := 9 }
      ∈ (update_submission_status
          (update_submission_status { emptyDB with submissions := [draftSubmission] }
            1 "approved" (some "approver1") 5).1
          1 "rejected" (some "approver2") 9).1.submissions) :=
  c5_review_stamping { emptyDB with submissions := [draftSubmission] } 1 5 9
    (some "approver1") (some "approver2") "approved" "rejected"
    (Or.inl rfl) (Or.inr rfl) draftSubmission (by simp) rfl

/-! ## C7: field update fully replaces the mapping, frames the rest -/

/-- C7: update_submission_fields stores exactly the new mapping for the
submission (every previously stored field row for it is gone), bumps the
submission's updated_at, and leaves all its other columns — and every
other submission — unchanged. -/
theorem c7_update_fields (db : DB) (sid : Nat) (fields : List (String × Val))
    (now : Nat) :
    (((update_submission_fields db sid fields now).1.submission_fields.filter
        (fun r => r.submission_id == sid)).map
        (fun r => (r.field_name, r.field_value))
      = fields.map (fun nv => (nv.1, flattenValue nv.2)))
    ∧ (∀ s ∈ db.submissions, s.id = sid →
        { s with updated_at := now }
          ∈ (update_submission_fields db sid fields now).1.submissions)
    ∧ (∀ s ∈ db.submissions, ¬s.id = sid →
        s ∈ (update_submission_fields db sid fields now).1.submissions) := by
  refine ⟨?_, ?_, ?_⟩
  · simp only [update_submission_fields]
    rw [List.filter_append]
    have h1 : (db.submission_fields.filter
        (fun r => !(r.submission_id == sid))).filter
        (fun r => r.submission_id == sid) = [] := by
      rw [List.filter_eq_nil_iff]
      intro r hr
      have := (List.mem_filter.mp hr).2
      simp_all
    have h2 : ((fields.map (fun nv =>
        ({ submission_id := sid, field_name := nv.1,
           field_value := flattenValue nv.2,
           created_at := now } : SubmissionFieldRow))).filter
        (fun r => r.submission_id == sid))
        = fields.map (fun nv =>
        ({ submission_id := sid, field_name := nv.1,
           field_value := flattenValue nv.2,
           created_at := now } : SubmissionFieldRow)) := by
      rw [List.filter_eq_self]
      intro r hr
      obtain ⟨nv, -, hnv⟩ := List.mem_map.mp hr
      subst hnv
      simp
    rw [h1, h2, List.nil_append, List.map_map]
    rfl
  · intro s hs hid
    simp only [update_submission_fields]
    exact List.mem_map.mpr ⟨s, hs, by simp [hid]⟩
  · intro s hs hid
    simp only [update_submission_fields]
    exact List.mem_map.mpr ⟨s, hs, by simp [hid]⟩

/-- Witness for c7_update_fields: replacing the fields of the only
submission stores exactly the new mapping and bumps its updated_at. -/
theorem c7_update_fields_witness :
    (((update_submission_fields
        { emptyDB with
          submissions := [draftSubmission],
          submission_fields := [{ submission_id := 1, field_name := "title",
                                  field_value := "Old", created_at := 0 }] }
        1 [("title", Val.str "New")] 7).1.submission_fields.filter
        (fun r => r.submission_id == 1)).map
        (fun r => (r.field_name, r.field_value))
      = [("title", "New")])
    ∧ ({ draftSubmission with updated_at := 7 }
        ∈ (update_submission_fields
          { emptyDB with
            submissions := [draftSubmission],
            submission_fields := [{ submission_id := 1, field_name := "title",
                                    field_value := "Old", created_at := 0 }] }
          1 [("title", Val.str "New")] 7).1.submissions) := by
  have h := c7_update_fields
    { emptyDB with
      submissions := [draftSubmission],
      submission_fields := [{ submission_id := 1, field_name := "title",
                              field_value := "Old", created_at := 0 }] }
    1 [("title", Val.str "New")] 7
  exact ⟨h.1, h.2.1 draftSubmission (by simp) rfl⟩

/-! ## C8: behaviour on unknown ids -/

/-- C8 counterexample: on an empty store (submission id 1 unknown),
update_submission_fields reports success (true, not false) and changes the
store by inserting the field row for the unknown id. -/
theorem c8_counterexample :
    (update_submission_fields emptyDB 1 [("title", Val.str "A")] 0).2 = true
    ∧ (update_submission_fields emptyDB 1 [("title", Val.str "A")] 0).1 ≠ emptyDB := by
  exact ⟨by decide, by decide⟩

lemma update_publication_status_unknown (db : DB) (pub_id : Nat) (st : String)
    (now : Nat) (hpub : ∀ p ∈ db.publications, p.id ≠ pub_id) :
    update_publication_status db pub_id st now = (db, false) := by
  simp only [update_publication_status]
  have hmap : db.publications.map (fun p =>
      if p.id == pub_id then
        if st == "published" then { p with status := st, published_at := some now }
        else { p with status := st }
      else p) = db.publications := by
    calc db.publications.map _ = db.publications.map id :=
          List.map_congr_left (fun p hp => by simp [hpub p hp])
      _ = db.publications := List.map_id _
  have hany : db.publications.any (fun p => p.id == pub_id) = false := by
    rw [List.any_eq_false]
    intro p hp
    simp [hpub p hp]
  rw [hmap, hany]

lemma update_submission_status_unknown (db : DB) (sid : Nat) (st : String)
    (rb : Option String) (now : Nat)
    (hsub : ∀ s ∈ db.submissions, s.id ≠ sid) :
    update_submission_status db sid st rb now = (db, false) := by
  simp only [update_submission_status]
  have hmap : db.submissions.map (fun s =>
      if s.id == sid then
        if st == "submitted" then
          { s with status := st, submitted_at := some now, updated_at := now }
        else if st == "approved" || st == "rejected" then
          { s with
            status := st, reviewed_by := rb, reviewed_at := some now,
            updated_at := now }
        else { s with status := st, updated_at := now }
      else s) = db.submissions := by
    calc db.submissions.map _ = db.submissions.map id :=
          List.map_congr_left (fun x hx => by simp [hsub x hx])
      _ = db.submissions := List.map_id _
  have hany : db.submissions.any (fun s => s.id == sid) = false := by
    rw [List.any_eq_false]
    intro x hx
    simp [hsub x hx]
  rw [hmap, hany]

/-- C8 as amended: for an unknown id, close_publication,
publish_publication and update_submission_status return false and leave
the store unchanged; update_submission_fields, however, returns true even
for an unknown submission id and inserts the given field rows keyed to
that id (the submissions table itself is unchanged). -/
theorem c8_unknown_id (db : DB) (pub_id sid : Nat)
    (fields : List (String × Val)) (now : Nat)
    (hpub : ∀ p ∈ db.publications, p.id ≠ pub_id)
    (hsub : ∀ s ∈ db.submissions, s.id ≠ sid) :
    close_publication db pub_id now = (db, false)
    ∧ publish_publication db pub_id now = (db, false)
    ∧ (∀ (st : String) (rb : Option String),
        update_submission_status db sid st rb now = (db, false))
    ∧ (update_submission_fields db sid fields now).2 = true
    ∧ (update_submission_fields db sid fields now).1.submissions = db.submissions
    ∧ ((∀ r ∈ db.submission_fields, r.submission_id ≠ sid) →
        (update_submission_fields db sid fields now).1.submission_fields
          = db.submission_fields ++ fields.map (fun nv =>
              ({ submission_id := sid, field_name := nv.1,
                 field_value := flattenValue nv.2,
                 created_at := now } : SubmissionFieldRow))) := by
  refine ⟨update_publication_status_unknown db pub_id "under_review" now hpub,
    update_publication_status_unknown db pub_id "published" now hpub,
    fun st rb => update_submission_status_unknown db sid st rb now hsub,
    rfl, ?_, ?_⟩
  · simp only [update_submission_fields]
    calc db.submissions.map _ = db.submissions.map id :=
          List.map_congr_left (fun x hx => by simp [hsub x hx])
      _ = db.submissions := List.map_id _
  · intro hrows
    simp only [update_submission_fields]
    have hkeep : db.submission_fields.filter
        (fun r => !(r.submission_id == sid)) = db.submission_fields := by
      rw [List.filter_eq_self]
      intro r hr
      simp [hrows r hr]
    rw [hkeep]

/-- Witness for c8_unknown_id: on the empty store id 1 is unknown for all
four operations. -/
theorem c8_unknown_id_witness :
    close_publication emptyDB 1 0 = (emptyDB, false)
    ∧ publish_publication emptyDB 1 0 = (emptyDB, false)
    ∧ update_submission_status emptyDB 1 "approved" none 0 = (emptyDB, false)
    ∧ (update_submission_fields emptyDB 1 [("title", Val.str "A")] 0).1.submission_fields
        = [{ submission_id := 1, field_name := "title", field_value := "A",
             created_at := 0 }] := by
  have h := c8_unknown_id emptyDB 1 1 [("title", Val.str "A")] 0
    (by intro p hp; cases hp) (by intro s hs; cases hs)
  refine ⟨h.1, h.2.1, h.2.2.1 "approved" none, ?_⟩
  rw [h.2.2.2.2.2 (by intro r hr; cases hr)]
  rfl

/-! ## C6: field round-trip through create and read -/

lemma foldl_dictInsert (rows : List SubmissionFieldRow)
    (acc : List (String × String))
    (hnd : (rows.map (fun r => r.field_name)).Nodup)
    (hdisj : ∀ kv ∈ acc, kv.1 ∉ rows.map (fun r => r.field_name)) :
    rows.foldl (fun acc r => dictInsert acc r.field_name r.field_value) acc
      = acc ++ rows.map (fun r => (r.field_name, r.field_value)) := by
  induction rows generalizing acc with
  | nil => simp
  | cons r rest ih =>
    rw [List.foldl_cons]
    have hhead : ∀ kv ∈ acc, kv.1 ≠ r.field_name := by
      intro kv hkv
      have := hdisj kv hkv
      simp only [List.map_cons, List.mem_cons, not_or] at this
      exact this.1
    have hnotin : (acc.any (fun kv => kv.1 == r.field_name)) = false := by
      rw [List.any_eq_false]
      intro kv hkv
      simp [hhead kv hkv]
    have hins : dictInsert acc r.field_name r.field_value
        = acc ++ [(r.field_name, r.field_value)] := by
      rw [dictInsert, hnotin]
      simp
    rw [hins, ih (acc ++ [(r.field_name, r.field_value)])]
    · simp
    · exact (List.nodup_cons.mp (by simpa using hnd)).2
    · intro kv hkv
      rcases List.mem_append.mp hkv with h | h
      · have := hdisj kv h
        simp only [List.map_cons, List.mem_cons, not_or] at this
        exact this.2
      · have : kv = (r.field_name, r.field_value) := List.mem_singleton.mp h
        subst this
        exact (List.nodup_cons.mp (by simpa using hnd)).1

/-- C6: reading back the fields of a freshly created submission returns
every value as a string — a string value unchanged and a list value joined
with ", " — never as a list. -/
theorem c6_field_roundtrip (db : DB) (publication_id : Nat)
    (user_email project_name : String) (fields : List (String × Val))
    (now : Nat)
    (hfresh : ∀ r ∈ db.submission_fields, r.submission_id ≠ db.nextSubId)
    (hnd : (fields.map Prod.fst).Nodup) :
    get_submission_fields
        (create_submission db publication_id user_email project_name fields now).1
        (create_submission db publication_id user_email project_name fields now).2.id
      = fields.map (fun nv => (nv.1, flattenValue nv.2)) := by
  simp only [create_submission, get_submission_fields]
  rw [List.filter_append]
  have h1 : db.submission_fields.filter
      (fun r => r.submission_id == db.nextSubId) = [] := by
    rw [List.filter_eq_nil_iff]
    intro r hr
    simp [hfresh r hr]
  have h2 : ((fields.map (fun nv =>
      ({ submission_id := db.nextSubId, field_name := nv.1,
         field_value := flattenValue nv.2,
         created_at := now } : SubmissionFieldRow))).filter
      (fun r => r.submission_id == db.nextSubId))
      = fields.map (fun nv =>
      ({ submission_id := db.nextSubId, field_name := nv.1,
         field_value := flattenValue nv.2,
         created_at := now } : SubmissionFieldRow)) := by
    rw [List.filter_eq_self]
    intro r hr
    obtain ⟨nv, -, hnv⟩ := List.mem_map.mp hr
    subst hnv
    simp
  rw [h1, h2, List.nil_append, foldl_dictInsert]
  · simp [List.map_map]
  · rw [List.map_map]
    simpa using hnd
  · intro kv hkv
    cases hkv

/-- Witness for c6_field_roundtrip: the mapping
{title: "A", tags: ["X", "Y"]} reads back as
{title: "A", tags: "X, Y"}. -/
theorem c6_field_roundtrip_witness :
    get_submission_fields
        (create_submission emptyDB 1 "user@example.com" "Apollo"
          [("title", Val.str "A"), ("tags", Val.list ["X", "Y"])] 0).1
        (create_submission emptyDB 1 "user@example.com" "Apollo"
          [("title", Val.str "A"), ("tags", Val.list ["X", "Y"])] 0).2.id
      = [("title", "A"), ("tags", "X, Y")] := by
  rw [c6_field_roundtrip emptyDB 1 "user@example.com" "Apollo"
    [("title", Val.str "A"), ("tags", Val.list ["X", "Y"])] 0
    (by intro r hr; cases hr) (by decide)]
  rfl

/-! ## C9: form validation collects every error and gates persistence -/

lemma collectErrors_append (fields : List (String × Val))
    (c1 c2 : List FieldConfig) (e1 e2 : List String)
    (h1 : collectErrors fields c1 = .ok e1)
    (h2 : collectErrors fields c2 = .ok e2) :
    collectErrors fields (c1 ++ c2) = .ok (e1 ++ e2) := by
  induction c1 generalizing e1 with
  | nil =>
    simp only [collectErrors] at h1
    injection h1 with h1'
    subst h1'
    simpa using h2
  | cons cfg rest ih =>
    cases hv : validate_field fields cfg with
    | error e =>
      rw [collectErrors, hv] at h1
      cases h1
    | ok e =>
      cases hr : collectErrors fields rest with
      | error e2 =>
        rw [collectErrors, hv, hr] at h1
        cases h1
      | ok es =>
        rw [collectErrors, hv, hr] at h1
        injection h1 with h1'
        rw [List.cons_append, collectErrors, hv, ih es hr]
        rw [← h1', List.append_assoc]

lemma isEmpty_append_eq (l1 l2 : List String) :
    (l1 ++ l2).isEmpty = (l1.isEmpty && l2.isEmpty) := by
  cases l1 <;> cases l2 <;> simp

lemma validate_form_submission_ok (fields : List (String × Val))
    (config : List FieldConfig) (v : Bool) (errs : List String)
    (h : validate_form_submission fields config = .ok (v, errs)) :
    collectErrors fields config = .ok errs ∧ v = errs.isEmpty := by
  rw [validate_form_submission] at h
  cases hc : collectErrors fields config with
  | error e =>
    rw [hc] at h
    simp [Except.map] at h
  | ok es =>
    rw [hc] at h
    simp only [Except.map] at h
    injection h with h'
    rw [Prod.mk.injEq] at h'
    obtain ⟨hv, he⟩ := h'
    subst he
    exact ⟨rfl, hv.symm⟩

/-- The form configuration of the scenario: the app's required text field
'title' and its select field 'category' (labels and options from
settings.FORM_FIELDS). -/
def scenarioConfig : List FieldConfig :=
  [{ name := "title", label := "Spotlight Title", required := true,
     type := "text", options := [] },
   { name := "category", label := "Category", required := true,
     type := "select",
     options := ["Innovation", "Process Improvement", "Customer Success",
                 "Team Achievement", "Technology Advancement",
                 "Business Growth", "Other"] }]

/-- The scenario's submitted values: empty title, category outside the
option set. -/
def scenarioFields : List (String × Val) :=
  [("title", Val.str ""), ("category", Val.str "Cooking")]

/-- C9: validation returns every violated rule at once — on the scenario
exactly the two expected messages with is_valid = false; errors over a
concatenated configuration are the concatenation of the errors; and the
submit workflow persists nothing when validation fails. -/
theorem c9_validation :
    (validate_form_submission scenarioFields scenarioConfig
      = .ok (false, ["Spotlight Title is required",
                     "Category must be one of the available options"]))
    ∧ (∀ (fields : List (String × Val)) (c1 c2 : List FieldConfig)
        (v1 v2 : Bool) (e1 e2 : List String),
        validate_form_submission fields c1 = .ok (v1, e1) →
        validate_form_submission fields c2 = .ok (v2, e2) →
        validate_form_submission fields (c1 ++ c2) = .ok ((v1 && v2), e1 ++ e2))
    ∧ (∀ (db : DB) (publication_id : Nat)
        (user_email project_name : String) (fields : List (String × Val))
        (config : List FieldConfig) (errs : List String) (now : Nat),
        validate_form_submission fields config = .ok (false, errs) →
        (submit_form_workflow db publication_id user_email project_name
          fields config now).1 = db) := by
  refine ⟨by rfl, ?_, ?_⟩
  · intro fields c1 c2 v1 v2 e1 e2 h1 h2
    obtain ⟨hc1, hv1⟩ := validate_form_submission_ok fields c1 v1 e1 h1
    obtain ⟨hc2, hv2⟩ := validate_form_submission_ok fields c2 v2 e2 h2
    rw [validate_form_submission, collectErrors_append fields c1 c2 e1 e2 hc1 hc2]
    simp [Except.map, hv1, hv2, isEmpty_append_eq]
  · intro db publication_id user_email project_name fields config errs now h
    rw [submit_form_workflow, h]

/-- Witness for c9_validation: on the scenario input the workflow leaves
the store unchanged, and validating the doubled configuration doubles the
error list. -/
theorem c9_validation_witness :
    (submit_form_workflow emptyDB 1 "user@example.com" "Apollo"
        scenarioFields scenarioConfig 0).1 = emptyDB
    ∧ validate_form_submission scenarioFields (scenarioConfig ++ scenarioConfig)
      = .ok (false, ["Spotlight Title is required",
                     "Category must be one of the available options",
                     "Spotlight Title is required",
                     "Category must be one of the available options"]) := by
  constructor
  · exact c9_validation.2.2 emptyDB 1 "user@example.com" "Apollo"
      scenarioFields scenarioConfig
      ["Spotlight Title is required",
       "Category must be one of the available options"] 0 (by rfl)
  · exact c9_validation.2.1 scenarioFields scenarioConfig scenarioConfig
      false false
      ["Spotlight Title is required",
       "Category must be one of the available options"]
      ["Spotlight Title is required",
       "Category must be one of the available options"]
      (by rfl) (by rfl)

end Spotlight
